import Mathlib

/-!
Shallow embedding of the syslog-loose parsing/serialization core
(`src/message.rs`, `src/rfc3164.rs`), together with models of the crate
modules the headers reference (`pri`, `parsers`, `structured_data`) and of
the chrono date-time constructors the code calls.

Rust `&str` input is modelled as `List Char`; a nom parser
`Fn(&str) -> IResult<&str, T>` becomes `List Char → Option (List Char × T)`.
A Rust panic (chrono's `ymd`/`and_hms` on out-of-range values) is modelled
as a distinguished `ParseOutcome.panic` result, distinct from a nom error.
-/

namespace SyslogLoose

/-- Syslog facility: one of the 24 named facilities, numbered 0–23
(`pri.rs` is absent from `src/`; modelled from the spec, §3/glossary).
`LOG_AUTH` is facility 4, `LOG_SYSLOG` facility 5. -/
abbrev SyslogFacility := Fin 24

/-- Syslog severity: one of the 8 named severities, numbered 0–7
(`pri.rs` is absent from `src/`; modelled from the spec, §3/glossary).
`SEV_CRIT` is severity 2, `SEV_DEBUG` severity 7. -/
abbrev SyslogSeverity := Fin 8

def LOG_AUTH : SyslogFacility := ⟨4, by decide⟩

def LOG_SYSLOG : SyslogFacility := ⟨5, by decide⟩

def SEV_CRIT : SyslogSeverity := ⟨2, by decide⟩

def SEV_DEBUG : SyslogSeverity := ⟨7, by decide⟩

/-- Modelled from the spec: the Priority Codec `encode` of §4.1
(`pri.rs` is absent from `src/`): `facility*8 + severity`. -/
def compose_pri (f : SyslogFacility) (s : SyslogSeverity) : Nat :=
  f.val * 8 + s.val

/-- Model of chrono `DateTime<FixedOffset>`: a calendar date-time plus a
fixed offset in seconds east of UTC (`FixedOffset::west(0)` is offset 0). -/
structure DateTimeFO where
  year : Int
  month : Nat
  day : Nat
  hour : Nat
  minute : Nat
  second : Nat
  offsetSeconds : Int
  deriving DecidableEq, Repr

/-- Gregorian leap-year rule, as used by chrono's calendar validation. -/
def isLeapYear (y : Int) : Bool :=
  decide (y % 4 = 0 ∧ (y % 100 ≠ 0 ∨ y % 400 = 0))

/-- Days in a month of a given year, as used by chrono's calendar validation. -/
def daysInMonth (y : Int) (m : Nat) : Nat :=
  if m = 2 then (if isLeapYear y then 29 else 28)
  else if m = 4 ∨ m = 6 ∨ m = 9 ∨ m = 11 then 30
  else 31

/-- Model of the chrono call chain `FixedOffset::west(w).ymd(y, m, d).and_hms(h, mi, s)`:
`west(w)` yields the fixed offset `-w` seconds; `ymd` panics on an invalid
calendar date and `and_hms` panics on an invalid time of day. A panic is
modelled as `none`. -/
def chronoWestYmdAndHms (w : Int) (y : Int) (m d h mi s : Nat) : Option DateTimeFO :=
  if 1 ≤ m ∧ m ≤ 12 ∧ 1 ≤ d ∧ d ≤ daysInMonth y m ∧ h ≤ 23 ∧ mi ≤ 59 ∧ s ≤ 59 then
    some ⟨y, m, d, h, mi, s, -w⟩
  else
    none

/-- `rfc3164.rs`: an incomplete date is a tuple of (month, date, hour, minutes, seconds). -/
abbrev IncompleteDate := Nat × Nat × Nat × Nat × Nat

/-- `rfc3164.rs` `parse_month`: the month as a three letter string; returns the number. -/
def parse_month (s : String) : Except String Nat :=
  if s = "Jan" then .ok 1
  else if s = "Feb" then .ok 2
  else if s = "Mar" then .ok 3
  else if s = "Apr" then .ok 4
  else if s = "May" then .ok 5
  else if s = "Jun" then .ok 6
  else if s = "Jul" then .ok 7
  else if s = "Aug" then .ok 8
  else if s = "Sep" then .ok 9
  else if s = "Oct" then .ok 10
  else if s = "Nov" then .ok 11
  else if s = "Dec" then .ok 12
  else .error ("Invalid month " ++ s)

/-- `rfc3164.rs` `make_timestamp`: makes a timestamp given all the fields of
the date less the year and a function to resolve the year. The Rust body is
`FixedOffset::west(0).ymd(year, mon, d).and_hms(h, min, s)`, which panics
(modelled as `none`) when the parsed digits form an invalid date or time. -/
def make_timestamp (t : IncompleteDate) (get_year : IncompleteDate → Int) :
    Option DateTimeFO :=
  let year := get_year t
  chronoWestYmdAndHms 0 year t.1 t.2.1 t.2.2.1 t.2.2.2.1 t.2.2.2.2

/-! ## nom combinators over `List Char` -/

/-- A nom parser over string slices. -/
abbrev P (α : Type) := List Char → Option (List Char × α)

/-- nom `tag!`: match a literal token. -/
def tagP (t : List Char) : P Unit := fun input =>
  if t.isPrefixOf input then some (input.drop t.length, ()) else none

/-- nom `take!(n)`: take exactly `n` characters. -/
def takeP (n : Nat) : P (List Char) := fun input =>
  if n ≤ input.length then some (input.drop n, input.take n) else none

/-- A whitespace character, per nom `space0`/`space1` (space or tab). -/
def isSpaceChar (c : Char) : Bool := c = ' ' ∨ c = '\t'

/-- nom `space0`: zero or more spaces/tabs; never fails. -/
def space0 : P Unit := fun input =>
  some (input.dropWhile isSpaceChar, ())

/-- nom `space1`: one or more spaces/tabs. -/
def space1 : P Unit := fun input =>
  if (input.takeWhile isSpaceChar).isEmpty then none
  else some (input.dropWhile isSpaceChar, ())

/-- nom `opt!`: turn failure into `none` without consuming input. -/
def optP (p : P α) : P (Option α) := fun input =>
  match p input with
  | some (rest, v) => some (rest, some v)
  | none => some (input, none)

/-- nom `preceded!`: run both parsers, keep the second result. -/
def preceded (p : P α) (q : P β) : P β := fun input =>
  (p input).bind fun pr => q pr.1

/-- Numeric value of a run of decimal digit characters. -/
def natOfDigits (ds : List Char) : Nat :=
  ds.foldl (fun acc c => acc * 10 + (c.toNat - 48)) 0

/-- Modelled from the spec: `parsers.rs` is absent from `src/`. `u32_digits`
reads a non-empty run of decimal digits as a number (the digit fields of the
legacy timestamp grammar, §4.3). -/
def u32_digits : P Nat := fun input =>
  let ds := input.takeWhile Char.isDigit
  if ds.isEmpty then none else some (input.drop ds.length, natOfDigits ds)

/-- Modelled from the spec: `pri.rs` is absent from `src/`. The priority
token parser of §4.1: a bracketed decimal `<NNN>`; decoding fails when the
value is not within `[0,191]`, otherwise `facility = n / 8`,
`severity = n % 8` (both carried as present/`Some`). -/
def pri : P (Option SyslogFacility × Option SyslogSeverity) := fun input =>
  (tagP ['<'] input).bind fun r1 =>
  (u32_digits r1.1).bind fun r2 =>
  (tagP ['>'] r2.1).bind fun r3 =>
  if h : r2.2 ≤ 191 then
    some (r3.1, (some ⟨r2.2 / 8, by omega⟩, some ⟨r2.2 % 8, by omega⟩))
  else
    none

/-- Modelled from the spec: `parsers.rs` is absent from `src/`. The legacy
hostname token of §4.4: a non-empty run of characters up to whitespace or the
`:` separator; a literal `-` marks an intentionally absent field (§7). -/
def hostname : P (Option String) := fun input =>
  let tok := input.takeWhile (fun c => ¬ (isSpaceChar c ∨ c = ':'))
  if tok.isEmpty then none
  else some (input.drop tok.length, if tok = ['-'] then none else some (String.mk tok))

/-- Modelled from the spec: `parsers.rs` is absent from `src/`. The legacy
app-name token of §4.4, with the same token shape and `-` absence marker as
the hostname token. -/
def appname : P (Option String) := fun input =>
  let tok := input.takeWhile (fun c => ¬ (isSpaceChar c ∨ c = ':'))
  if tok.isEmpty then none
  else some (input.drop tok.length, if tok = ['-'] then none else some (String.mk tok))

/-- `rfc3164.rs` `timestamp`: the timestamp for 3164 messages, `MMM DD HH:MM:SS`. -/
def timestamp : P IncompleteDate := fun input =>
  (takeP 3 input).bind fun r1 =>
  match parse_month (String.mk r1.2) with
  | .error _ => none
  | .ok mon =>
  (space1 r1.1).bind fun r2 =>
  (u32_digits r2.1).bind fun r3 =>
  (space1 r3.1).bind fun r4 =>
  (u32_digits r4.1).bind fun r5 =>
  (tagP [':'] r5.1).bind fun r6 =>
  (u32_digits r6.1).bind fun r7 =>
  (tagP [':'] r7.1).bind fun r8 =>
  (u32_digits r8.1).bind fun r9 =>
  some (r9.1, (mon, r3.2, r5.2, r7.2, r9.2))

/-- `header.rs` is absent from `src/`; the `Header` fields are those
assigned in `rfc3164.rs::header` and described in the spec, §3. -/
structure Header where
  facility : Option SyslogFacility
  severity : Option SyslogSeverity
  timestamp : Option DateTimeFO
  hostname : Option String
  version : Option Nat
  appname : Option String
  procid : Option String
  msgid : Option String
  deriving DecidableEq, Repr

/-- Outcome of running a Rust parse entry point: a nom success with the
remaining input, a nom error, or a Rust panic. -/
inductive ParseOutcome (α : Type) where
  | ok (rest : String) (value : α)
  | err
  | panic
  deriving DecidableEq, Repr

/-- The pure nom part of `rfc3164.rs::header`: priority, then the legacy
timestamp after optional whitespace, then optional hostname and app-name
tokens each preceded by whitespace, then an optional `:` and optional
whitespace. Yields the remainder, the priority pair, the incomplete date and
the flattened hostname/appname options. -/
def headerParts (input : List Char) :
    Option (List Char × (Option SyslogFacility × Option SyslogSeverity) ×
      IncompleteDate × Option String × Option String) :=
  (pri input).bind fun r1 =>
  ((preceded space0 timestamp) r1.1).bind fun r2 =>
  ((optP (preceded space1 hostname)) r2.1).bind fun r3 =>
  ((optP (preceded space1 appname)) r3.1).bind fun r4 =>
  ((optP (tagP [':'])) r4.1).bind fun r5 =>
  ((optP space0) r5.1).bind fun r6 =>
  some (r6.1, r1.2, r2.2, r3.2.join, r4.2.join)

/-- `rfc3164.rs` `header`: parses the header; fails if it cannot parse a 3164
format header. The `Header` value (including the `make_timestamp` call, which
can panic) is built only after every sub-parser has succeeded, exactly as in
the nom `do_parse!` chain. -/
def header (input : String) (get_year : IncompleteDate → Int) : ParseOutcome Header :=
  match headerParts input.data with
  | none => .err
  | some (rest, fs, tup, host, app) =>
    match make_timestamp tup get_year with
    | none => .panic
    | some ts =>
      .ok (String.mk rest)
        { facility := fs.1
          severity := fs.2
          timestamp := some ts
          hostname := host
          version := none
          appname := app
          procid := none
          msgid := none }

/-! ## Message model (`src/message.rs`) -/

/-- `message.rs` `Protocol`: the protocol tag, legacy or structured with a
version number. -/
inductive Protocol where
  | RFC3164
  | RFC5424 (version : Nat)
  deriving DecidableEq, Repr

/-- Modelled from the spec: `structured_data.rs` is absent from `src/`.
A structured-data element (§3): an element identifier plus an ordered
sequence of (parameter-name, parameter-value) pairs, generic over the text
type `S`. -/
structure StructuredElement (S : Type) where
  id : S
  params : List (S × S)
  deriving DecidableEq, Repr

/-- `message.rs` `Message<S>`: the unified message entity, generic over the
text type `S`. -/
structure Message (S : Type) where
  protocol : Protocol
  facility : Option SyslogFacility
  severity : Option SyslogSeverity
  timestamp : Option DateTimeFO
  hostname : Option S
  appname : Option S
  procid : Option S
  msgid : Option S
  structured_data : List (StructuredElement S)
  msg : S

/-- `message.rs` `impl PartialEq for Message`: field-by-field equality over
every field except the protocol tag. -/
def messageEq {S : Type} [DecidableEq S] (a b : Message S) : Bool :=
  decide (a.facility = b.facility)
    && decide (a.severity = b.severity)
    && decide (a.timestamp = b.timestamp)
    && decide (a.hostname = b.hostname)
    && decide (a.appname = b.appname)
    && decide (a.procid = b.procid)
    && decide (a.msgid = b.msgid)
    && decide (a.structured_data = b.structured_data)
    && decide (a.msg = b.msg)

/-! ## Rendering (`impl Display for Message`) -/

/-- Decimal digits of a natural number, zero-padded on the left to width 2
(chrono `%m`, `%d`, `%H`, `%M`, `%S`). -/
def pad2 (n : Nat) : String :=
  if n < 10 then "0" ++ toString n else toString n

/-- Decimal digits of a natural number, zero-padded on the left to width 4
(chrono `%Y` for years in `[0, 9999]`). -/
def pad4 (n : Nat) : String :=
  if n < 10 then "000" ++ toString n
  else if n < 100 then "00" ++ toString n
  else if n < 1000 then "0" ++ toString n
  else toString n

/-- chrono year field of RFC3339 text: zero-padded to four digits, with a
leading `-` for negative years. -/
def yearStr (y : Int) : String :=
  if y < 0 then "-" ++ pad4 (-y).toNat else pad4 y.toNat

/-- chrono `%:z`: the fixed offset as `±HH:MM` (`+00:00` for offset 0). -/
def offsetSuffix (off : Int) : String :=
  let a := (if off < 0 then -off else off).toNat
  (if off < 0 then "-" else "+") ++ pad2 (a / 3600) ++ ":" ++ pad2 (a % 3600 / 60)

/-- Model of chrono `DateTime::to_rfc3339` for a whole-second time:
`YYYY-MM-DDTHH:MM:SS±HH:MM` (no fractional part when nanoseconds are 0). -/
def toRfc3339 (t : DateTimeFO) : String :=
  yearStr t.year ++ "-" ++ pad2 t.month ++ "-" ++ pad2 t.day ++ "T"
    ++ pad2 t.hour ++ ":" ++ pad2 t.minute ++ ":" ++ pad2 t.second
    ++ offsetSuffix t.offsetSeconds

/-- The version column of the rendered header: empty for `RFC3164`, the
version's digits for `RFC5424(version)` (`message.rs`, `Display`). -/
def protocolStr : Protocol → String
  | .RFC3164 => ""
  | .RFC5424 v => toString v

/-- Modelled from the spec: `structured_data.rs` is absent from `src/`.
Escaping of a parameter value for the wire (§4.2): `"`, `\` and `]` are
backslash-escaped, unconditionally. -/
def escapeSDValue (s : String) : String :=
  String.mk (s.data.foldr
    (fun c acc => if c = '"' ∨ c = '\\' ∨ c = ']' then '\\' :: c :: acc else c :: acc) [])

/-- Modelled from the spec: `structured_data.rs` is absent from `src/`.
Rendering of one structured-data element (§4.2):
`[id (SP name="escaped value")*]`. -/
def renderStructuredElement (e : StructuredElement String) : String :=
  "[" ++ e.id
    ++ String.join (e.params.map (fun p => " " ++ p.1 ++ "=\"" ++ escapeSDValue p.2 ++ "\""))
    ++ "]"

/-- The first `write!` of `message.rs` `Display`, format string
`"<{}>{} {} {} {} {} {} "` less its trailing space: PRI (with facility
defaulting to `LOG_SYSLOG` and severity to `SEV_DEBUG`), version column,
timestamp (the supplied wall-clock `now` when absent) rendered by
`to_rfc3339`, then hostname, appname, procid and msgid each rendered as `-`
when absent. -/
def renderHeaderCore (now : DateTimeFO) (m : Message String) : String :=
  "<" ++ toString (compose_pri (m.facility.getD LOG_SYSLOG) (m.severity.getD SEV_DEBUG))
    ++ ">" ++ protocolStr m.protocol
    ++ " " ++ toRfc3339 (m.timestamp.getD now)
    ++ " " ++ m.hostname.getD "-"
    ++ " " ++ m.appname.getD "-"
    ++ " " ++ m.procid.getD "-"
    ++ " " ++ m.msgid.getD "-"

/-- The structured-data column of `message.rs` `Display`: when the element
list is empty, `-` for `RFC5424` and nothing for `RFC3164`; otherwise the
elements rendered concatenated in order. -/
def renderSDPart (m : Message String) : String :=
  if m.structured_data.isEmpty then
    match m.protocol with
    | .RFC5424 _ => "-"
    | .RFC3164 => ""
  else
    String.join (m.structured_data.map renderStructuredElement)

/-- `message.rs` `impl Display for Message`: the full rendered wire line,
with the wall clock passed explicitly in place of `Utc::now()`. -/
def renderMessage (now : DateTimeFO) (m : Message String) : String :=
  renderHeaderCore now m ++ " " ++ renderSDPart m ++ " " ++ m.msg

/-- `Display::fmt` takes the message by immutable reference (`&self`);
modelled as explicit state passing: the call returns the (unchanged) message
together with the produced text. -/
def displayMessage (now : DateTimeFO) (m : Message String) : Message String × String :=
  (m, renderMessage now m)

/-! ## Ownership conversion (`impl From<Message<&str>> for Message<String>`) -/

/-- A borrowed text slice (Rust `&str`): a view of a character sequence. -/
structure BStr where
  chars : List Char
  deriving DecidableEq, Repr

/-- An owned text buffer (Rust `String`): an owned character sequence. -/
structure OStr where
  chars : List Char
  deriving DecidableEq, Repr

/-- Rust `str::to_string`: allocate an owned copy of the same character
sequence. -/
def to_string (s : BStr) : OStr := ⟨s.chars⟩

/-- Modelled from the spec: `structured_data.rs` is absent from `src/`. The
`StructuredElement<&str> → StructuredElement<String>` conversion applied by
`e.clone().into()` deep-copies the identifier and every parameter name and
value (§3, §9 text-ownership polymorphism). -/
def elementIntoOwned (e : StructuredElement BStr) : StructuredElement OStr :=
  { id := to_string e.id
    params := e.params.map (fun p => (to_string p.1, to_string p.2)) }

/-- `message.rs` `impl From<Message<&str>> for Message<String>`: field-by-field
conversion, deep-copying every text field. -/
def messageFrom (m : Message BStr) : Message OStr :=
  { facility := m.facility
    severity := m.severity
    timestamp := m.timestamp
    hostname := m.hostname.map to_string
    appname := m.appname.map to_string
    procid := m.procid.map to_string
    msgid := m.msgid.map to_string
    protocol := m.protocol
    structured_data := m.structured_data.map elementIntoOwned
    msg := to_string m.msg }

/-- The observable text content of a borrowed structured-data element. -/
def elementCharsB (e : StructuredElement BStr) : List Char × List (List Char × List Char) :=
  (e.id.chars, e.params.map (fun p => (p.1.chars, p.2.chars)))

/-- The observable text content of an owned structured-data element. -/
def elementCharsO (e : StructuredElement OStr) : List Char × List (List Char × List Char) :=
  (e.id.chars, e.params.map (fun p => (p.1.chars, p.2.chars)))

/-! ## Helper definitions for the rendered line's shape -/

/-- The rendered line strictly before the timestamp column: PRI and version. -/
def renderBeforeTimestamp (m : Message String) : String :=
  "<" ++ toString (compose_pri (m.facility.getD LOG_SYSLOG) (m.severity.getD SEV_DEBUG))
    ++ ">" ++ protocolStr m.protocol ++ " "

/-- The rendered line strictly after the timestamp column: the identifier
columns, structured data and body. -/
def renderAfterTimestamp (m : Message String) : String :=
  " " ++ m.hostname.getD "-"
    ++ " " ++ m.appname.getD "-"
    ++ " " ++ m.procid.getD "-"
    ++ " " ++ m.msgid.getD "-"
    ++ " " ++ renderSDPart m ++ " " ++ m.msg

/-- A fixed wall-clock value standing for `Utc::now()` in examples. -/
def epochTime : DateTimeFO := ⟨1970, 1, 1, 0, 0, 0, 0⟩

/-- The legacy message parsed from `"<34>Oct 11 22:14:15 mymachine: a message"`
with the year resolved to 2019 (the `parse_3164_header_timestamp_host` test),
completed into a `Message` with no structured data. -/
def exampleLegacyMessage : Message String :=
  { protocol := .RFC3164
    facility := some LOG_AUTH
    severity := some SEV_CRIT
    timestamp := some ⟨2019, 10, 11, 22, 14, 15, 0⟩
    hostname := some "mymachine"
    appname := none
    procid := none
    msgid := none
    structured_data := []
    msg := "a message" }

/-- The same field values under the structured protocol tag, version 1. -/
def exampleStructuredMessage : Message String :=
  { exampleLegacyMessage with protocol := .RFC5424 1 }

/-- A message with facility and severity absent, for the rendering-defaults
frame property. -/
def exampleNoPriMessage : Message String :=
  { exampleLegacyMessage with facility := none, severity := none }

theorem space_data : (" " : String).data = [' '] := rfl

theorem twoSpace_data : ("  " : String).data = [' ', ' '] := rfl

theorem emptyStr_data : ("" : String).data = [] := rfl

theorem dash_data : ("-" : String).data = ['-'] := rfl

/-- A successful `make_timestamp` result carries exactly the parsed tuple, the
resolved year and a zero offset. -/
theorem make_timestamp_some (tup : IncompleteDate) (gy : IncompleteDate → Int)
    (ts : DateTimeFO) (h : make_timestamp tup gy = some ts) :
    ts = { year := gy tup, month := tup.1, day := tup.2.1, hour := tup.2.2.1,
           minute := tup.2.2.2.1, second := tup.2.2.2.2, offsetSeconds := 0 } := by
  unfold make_timestamp chronoWestYmdAndHms at h
  dsimp only at h
  split at h
  · injection h with h
    exact h.symm
  · exact absurd h (by simp)

/-! ## Claims -/

/-- C1: `==` on `Message` compares facility, severity, timestamp, hostname,
appname, procid, msgid, structured_data and msg, and nothing else: two
messages agreeing on those nine fields compare equal whatever their protocol
tags (legacy vs. structured, or structured with different versions), and `==`
is `false` exactly when one of the compared fields differs. -/
theorem message_eq_ignores_protocol {S : Type} [DecidableEq S] (a b : Message S) :
    messageEq a b = true ↔
      (a.facility = b.facility ∧ a.severity = b.severity ∧ a.timestamp = b.timestamp ∧
       a.hostname = b.hostname ∧ a.appname = b.appname ∧ a.procid = b.procid ∧
       a.msgid = b.msgid ∧ a.structured_data = b.structured_data ∧ a.msg = b.msg) := by
  simp [messageEq, and_assoc]

/-- C2 (code bug): the legacy header entry point is not total. On
`"<34>Feb 31 12:00:00: boom"` with a year strategy returning 2019 the whole
nom grammar succeeds, and the `Header` construction then calls
`FixedOffset::west(0).ymd(2019, 2, 31)`, which panics (February has no
day 31), instead of returning a value or a typed failure. -/
theorem header_panics_on_invalid_calendar :
    header "<34>Feb 31 12:00:00: boom" (fun _ => 2019) = ParseOutcome.panic := by decide

/-- C3: every successfully produced legacy header has `procid = None`,
`msgid = None`, and a timestamp at the fixed zero offset whose year is the
caller's year-resolution strategy applied to the parsed
(month, day, hour, minute, second) tuple and whose remaining components are
that tuple. -/
theorem header_ok_shape (input : String) (gy : IncompleteDate → Int)
    (rest : String) (hdr : Header) (h : header input gy = .ok rest hdr) :
    hdr.procid = none ∧ hdr.msgid = none ∧
      ∃ mon d hr mi sec, hdr.timestamp =
        some { year := gy (mon, d, hr, mi, sec), month := mon, day := d, hour := hr,
               minute := mi, second := sec, offsetSeconds := 0 } := by
  unfold header at h
  cases hp : headerParts input.data with
  | none =>
    rw [hp] at h
    exact absurd h (by simp)
  | some parts =>
    obtain ⟨r, fs, tup, host, app⟩ := parts
    rw [hp] at h
    dsimp only at h
    cases hm : make_timestamp tup gy with
    | none =>
      rw [hm] at h
      exact absurd h (by simp)
    | some ts =>
      rw [hm] at h
      simp only [ParseOutcome.ok.injEq] at h
      obtain ⟨-, rfl⟩ := h
      obtain ⟨mon, d, hr, mi, sec⟩ := tup
      exact ⟨rfl, rfl, mon, d, hr, mi, sec,
        congrArg some (make_timestamp_some _ gy ts hm)⟩

/-- Witness for C3 at the first documented test vector. -/
theorem header_ok_shape_witness :
    ({ facility := some LOG_AUTH, severity := some SEV_CRIT,
       timestamp := some ⟨2019, 10, 11, 22, 14, 15, 0⟩, hostname := none,
       version := none, appname := none, procid := none, msgid := none } : Header).procid
        = none ∧
    ({ facility := some LOG_AUTH, severity := some SEV_CRIT,
       timestamp := some ⟨2019, 10, 11, 22, 14, 15, 0⟩, hostname := none,
       version := none, appname := none, procid := none, msgid := none } : Header).msgid
        = none ∧
    ∃ mon d hr mi sec,
      ({ facility := some LOG_AUTH, severity := some SEV_CRIT,
         timestamp := some ⟨2019, 10, 11, 22, 14, 15, 0⟩, hostname := none,
         version := none, appname := none, procid := none, msgid := none } : Header).timestamp
        = some { year := (fun _ => (2019 : Int)) (mon, d, hr, mi, sec), month := mon,
                 day := d, hour := hr, minute := mi, second := sec, offsetSeconds := 0 } :=
  header_ok_shape "<34>Oct 11 22:14:15: a message" (fun _ => 2019) "a message" _ (by decide)

/-- C5: the two documented parses. `"<34>Oct 11 22:14:15: a message"` with a
year strategy returning 2019 yields facility auth, severity critical,
timestamp 2019-10-11T22:14:15 at zero offset, no hostname, no appname and
remainder `"a message"`; `"<34>Oct 11 22:14:15 mymachine: a message"` yields
the same header with hostname `"mymachine"`. -/
theorem header_documented_examples :
    header "<34>Oct 11 22:14:15: a message" (fun _ => 2019) =
      .ok "a message"
        { facility := some LOG_AUTH, severity := some SEV_CRIT,
          timestamp := some ⟨2019, 10, 11, 22, 14, 15, 0⟩, hostname := none,
          version := none, appname := none, procid := none, msgid := none } ∧
    header "<34>Oct 11 22:14:15 mymachine: a message" (fun _ => 2019) =
      .ok "a message"
        { facility := some LOG_AUTH, severity := some SEV_CRIT,
          timestamp := some ⟨2019, 10, 11, 22, 14, 15, 0⟩, hostname := some "mymachine",
          version := none, appname := none, procid := none, msgid := none } :=
  ⟨by decide, by decide⟩

/-- C8: legacy month-name lookup succeeds exactly on the twelve canonical
capitalized three-letter tokens, returning 1 through 12, and returns the
invalid-month error on every other string. -/
theorem parse_month_exact :
    (parse_month "Jan" = .ok 1 ∧ parse_month "Feb" = .ok 2 ∧ parse_month "Mar" = .ok 3 ∧
     parse_month "Apr" = .ok 4 ∧ parse_month "May" = .ok 5 ∧ parse_month "Jun" = .ok 6 ∧
     parse_month "Jul" = .ok 7 ∧ parse_month "Aug" = .ok 8 ∧ parse_month "Sep" = .ok 9 ∧
     parse_month "Oct" = .ok 10 ∧ parse_month "Nov" = .ok 11 ∧ parse_month "Dec" = .ok 12) ∧
    ∀ s : String,
      s ∉ (["Jan", "Feb", "Mar", "Apr", "May", "Jun",
            "Jul", "Aug", "Sep", "Oct", "Nov", "Dec"] : List String) →
      parse_month s = .error ("Invalid month " ++ s) := by
  refine ⟨⟨rfl, rfl, rfl, rfl, rfl, rfl, rfl, rfl, rfl, rfl, rfl, rfl⟩, ?_⟩
  intro s hs
  simp only [List.mem_cons, List.not_mem_nil, or_false, not_or] at hs
  obtain ⟨h1, h2, h3, h4, h5, h6, h7, h8, h9, h10, h11, h12⟩ := hs
  simp [parse_month, h1, h2, h3, h4, h5, h6, h7, h8, h9, h10, h11, h12]

/-- Witness for C8 on a non-canonical token. -/
theorem parse_month_exact_witness :
    parse_month "oct" = .error ("Invalid month " ++ "oct") :=
  parse_month_exact.2 "oct" (by decide)

/-- C4: in the structured-data position of the rendered line — between the
header columns and the body, each separated by one space — an empty element
list renders as the literal `-` under a structured protocol tag and as empty
text under the legacy tag, and a non-empty list renders as the elements
concatenated in order regardless of the protocol tag. -/
theorem render_structured_data_position (now : DateTimeFO) (m : Message String) :
    (m.structured_data = [] → m.protocol = .RFC3164 →
      renderMessage now m = renderHeaderCore now m ++ " " ++ "" ++ " " ++ m.msg) ∧
    (∀ v, m.structured_data = [] → m.protocol = .RFC5424 v →
      renderMessage now m = renderHeaderCore now m ++ " " ++ "-" ++ " " ++ m.msg) ∧
    (m.structured_data ≠ [] →
      renderMessage now m =
        renderHeaderCore now m ++ " "
          ++ String.join (m.structured_data.map renderStructuredElement) ++ " " ++ m.msg) := by
  refine ⟨fun hsd hp => ?_, fun v hsd hp => ?_, fun hsd => ?_⟩
  · simp [renderMessage, renderSDPart, hsd, hp]
  · simp [renderMessage, renderSDPart, hsd, hp]
  · simp [renderMessage, renderSDPart, hsd]

/-- Witness for C4 at a structured message with no elements. -/
theorem render_structured_data_position_witness :
    renderMessage epochTime exampleStructuredMessage =
      renderHeaderCore epochTime exampleStructuredMessage ++ " " ++ "-" ++ " "
        ++ exampleStructuredMessage.msg :=
  (render_structured_data_position epochTime exampleStructuredMessage).2.1 1 rfl rfl

/-- C6: rendering substitutes the `LOG_SYSLOG` facility and `SEV_DEBUG`
severity defaults only in the produced wire text: the call takes the message
by immutable reference (modelled as returning it unchanged alongside the
text), and a message with facility or severity absent renders to exactly the
text of the same message with the default written into that field — the
stored `None` fields themselves are untouched. -/
theorem display_immutable_defaults (now : DateTimeFO) (m : Message String) :
    (displayMessage now m).1 = m ∧
    (m.facility = none →
      (displayMessage now m).2 =
        renderMessage now { m with facility := some LOG_SYSLOG }) ∧
    (m.severity = none →
      (displayMessage now m).2 =
        renderMessage now { m with severity := some SEV_DEBUG }) := by
  refine ⟨rfl, fun h => ?_, fun h => ?_⟩ <;>
    simp [displayMessage, renderMessage, renderHeaderCore, renderSDPart, h]

/-- Witness for C6 at a message with facility and severity absent. -/
theorem display_immutable_defaults_witness :
    (displayMessage epochTime exampleNoPriMessage).1 = exampleNoPriMessage ∧
    (displayMessage epochTime exampleNoPriMessage).2 =
      renderMessage epochTime { exampleNoPriMessage with facility := some LOG_SYSLOG } :=
  ⟨(display_immutable_defaults epochTime exampleNoPriMessage).1,
   (display_immutable_defaults epochTime exampleNoPriMessage).2.1 rfl⟩

/-- C7: the conversion from the borrowing message form to the owning form is
total (a Lean function) and lossless: protocol, facility, severity and
timestamp are copied unchanged, each optional text field is `some` exactly
when the original is and carries the same character sequence, the
structured-data elements keep their order and text content, and the body's
character sequence is preserved. -/
theorem messageFrom_lossless (m : Message BStr) :
    (messageFrom m).protocol = m.protocol ∧
    (messageFrom m).facility = m.facility ∧
    (messageFrom m).severity = m.severity ∧
    (messageFrom m).timestamp = m.timestamp ∧
    (messageFrom m).hostname.map OStr.chars = m.hostname.map BStr.chars ∧
    (messageFrom m).appname.map OStr.chars = m.appname.map BStr.chars ∧
    (messageFrom m).procid.map OStr.chars = m.procid.map BStr.chars ∧
    (messageFrom m).msgid.map OStr.chars = m.msgid.map BStr.chars ∧
    (messageFrom m).structured_data.map elementCharsO =
      m.structured_data.map elementCharsB ∧
    (messageFrom m).msg.chars = m.msg.chars := by
  refine ⟨rfl, rfl, rfl, rfl, ?_, ?_, ?_, ?_, ?_, rfl⟩ <;>
    simp [messageFrom, to_string, elementIntoOwned, elementCharsO, elementCharsB,
      Option.map_map, List.map_map, Function.comp_def]

/-- C9: whenever the timestamp is present it is rendered by `to_rfc3339` in
the timestamp column, between the PRI/version prefix and the identifier
columns, for both protocol tags; in particular the legacy message parsed from
`"<34>Oct 11 22:14:15 mymachine: a message"` renders without the year-less
`Mon DD HH:MM:SS` wire timestamp and so does not reproduce its original wire
text. -/
theorem render_timestamp_always_rfc3339 :
    (∀ (now : DateTimeFO) (m : Message String) (t : DateTimeFO),
        m.timestamp = some t →
        renderMessage now m =
          renderBeforeTimestamp m ++ toRfc3339 t ++ renderAfterTimestamp m) ∧
    ¬ List.IsInfix ("Oct 11 22:14:15" : String).data
        (renderMessage epochTime exampleLegacyMessage).data ∧
    renderMessage epochTime exampleLegacyMessage ≠
      "<34>Oct 11 22:14:15 mymachine: a message" := by
  refine ⟨fun now m t h => ?_, by decide, by decide⟩
  apply String.ext
  simp [renderMessage, renderHeaderCore, renderBeforeTimestamp, renderAfterTimestamp, h,
    String.data_append]

/-- Witness for C9's universal part at the parsed legacy example. -/
theorem render_timestamp_always_rfc3339_witness :
    renderMessage epochTime exampleLegacyMessage =
      renderBeforeTimestamp exampleLegacyMessage
        ++ toRfc3339 ⟨2019, 10, 11, 22, 14, 15, 0⟩
        ++ renderAfterTimestamp exampleLegacyMessage :=
  render_timestamp_always_rfc3339.1 epochTime exampleLegacyMessage _ rfl

/-- C10: a legacy message with no structured-data elements renders with two
consecutive spaces immediately before the body — the separator that follows
the msgid column and the separator that precedes the body are both emitted
around the empty structured-data text. -/
theorem render_legacy_empty_sd_double_space (now : DateTimeFO) (m : Message String)
    (hp : m.protocol = .RFC3164) (hsd : m.structured_data = []) :
    renderMessage now m = renderHeaderCore now m ++ "  " ++ m.msg := by
  apply String.ext
  simp [renderMessage, renderSDPart, hp, hsd, String.data_append, space_data, twoSpace_data]

/-- Witness for C10 at the parsed legacy example. -/
theorem render_legacy_empty_sd_double_space_witness :
    renderMessage epochTime exampleLegacyMessage =
      renderHeaderCore epochTime exampleLegacyMessage ++ "  " ++ exampleLegacyMessage.msg :=
  render_legacy_empty_sd_double_space epochTime exampleLegacyMessage rfl rfl

end SyslogLoose
